import Mathlib

/-
Shallow embedding of the codesync API handlers.

Source files:
  * src/api/get-score.js      — single-lookup endpoint (router + four adapters that throw on failure)
  * src/api/refresh-stats.js  — refresh endpoint (auth, profile load, concurrent fan-out,
                                Promise.allSettled join, Object.assign merge, Firestore persist)
  * src/unnamed/part_000      — a revision of refresh-stats.js whose adapters wrap their body
                                in try/catch and return null on failure (fulfilled-null instead
                                of a rejected promise; the merge skips both shapes identically)

External effects (network, DOM scraping, Firebase) are modelled as explicit environments:
upstream responses become payload values, a thrown network/parse error becomes `Upstream.throw`,
the Firestore document store and token verifier become functions in the environment, and the
persistence write's success is an environment flag.  The handler returns its HTTP status
together with a trace of the effects it performed (profile read, adapter calls started,
write attempts, committed state).
-/

namespace Codesync

/-- The four platforms the handlers know about. -/
inductive Platform
  | leetcode
  | codechef
  | hackerrank
  | gfg
deriving DecidableEq, Repr, Fintype

/-- JS truthiness of an optional string field: `undefined` and the empty string are falsy. -/
def jsTruthyStr : Option String → Bool
  | none => false
  | some s => !(s == "")

/-- JS `a || d` on strings when `a` is known to be a string: empty string falls back to `d`. -/
def jsOrDefault (s d : String) : String :=
  if s == "" then d else s

/-- JS `s.startsWith(p)`. -/
def jsStartsWith (s p : String) : Bool :=
  p.data.isPrefixOf s.data

/-- JS `s.toLowerCase()` restricted to ASCII, which is all the routing switch compares. -/
def jsToLower (s : String) : String :=
  ⟨s.data.map Char.toLower⟩

/-- Value of a non-empty digit string. -/
def digitsToNat (cs : List Char) : Nat :=
  cs.foldl (fun acc c => acc * 10 + (c.toNat - Char.toNat '0')) 0

/-- JS `parseInt(s, 10)`: skip leading whitespace, optional sign, then leading digits;
`none` models `NaN` (no digits found). -/
def jsParseInt (s : String) : Option Int :=
  match s.data.dropWhile Char.isWhitespace with
  | '-' :: rest =>
    let ds := rest.takeWhile Char.isDigit
    if ds.isEmpty then none else some (-(digitsToNat ds : Int))
  | '+' :: rest =>
    let ds := rest.takeWhile Char.isDigit
    if ds.isEmpty then none else some ((digitsToNat ds : Int))
  | cs =>
    let ds := cs.takeWhile Char.isDigit
    if ds.isEmpty then none else some ((digitsToNat ds : Int))

/-- First maximal run of digits in `s` — JS `s.match(&#47;\d+&#47;)`, first capture. -/
def firstDigitRun (s : String) : Option String :=
  match s.data.dropWhile (fun c => !c.isDigit) with
  | [] => none
  | cs => some ⟨cs.takeWhile Char.isDigit⟩

/-- LeetCode record built by both `getLeetCodeStats` variants (`{leetcode: {...}}` inner object). -/
structure LeetcodeStats where
  problems_solved : Nat
  Easy : Nat
  Medium : Nat
  Hard : Nat
deriving DecidableEq, Repr

/-- CodeChef record; `Option Int` fields model `parseInt` results, `none` being `NaN`. -/
structure CodechefStats where
  problems_solved : Option Int
  contest_rating : Option Int
  stars : String
  contests_participated : Option Int
deriving DecidableEq, Repr

/-- HackerRank record: just the scraped badge count. -/
structure HackerrankStats where
  badges : Nat
deriving DecidableEq, Repr

/-- GeeksforGeeks record (nested under the `gfg` key by the refresh adapter,
returned flat by the get-score adapter). -/
structure GfgStats where
  username : String
  totalProblemsSolved : Int
  easyProblems : Int
  mediumProblems : Int
  hardProblems : Int
deriving DecidableEq, Repr

/-- A JS object keyed by platform names: the shape of `newStats` in the refresh handler and of
every refresh adapter's fulfilled value.  An absent key is `none`. -/
@[ext]
structure AggregateStats where
  leetcode : Option LeetcodeStats := none
  codechef : Option CodechefStats := none
  hackerrank : Option HackerrankStats := none
  gfg : Option GfgStats := none
deriving DecidableEq, Repr

/-- Whether the aggregate object carries a key for platform `p`. -/
def AggregateStats.hasKey (a : AggregateStats) : Platform → Bool
  | .leetcode => a.leetcode.isSome
  | .codechef => a.codechef.isSome
  | .hackerrank => a.hackerrank.isSome
  | .gfg => a.gfg.isSome

/-- Outcome of one upstream HTTP interaction: either the transport/parse layer threw,
or it produced a payload (the data the adapter's pure code then consumes). -/
inductive Upstream (α : Type)
  | throw
  | ok (payload : α)

/-- One element of the GraphQL `acSubmissionNum` collection (the refresh variant aliases the
fields as `d`&#47;`c`; the shape is the same). -/
structure LCEntry where
  difficulty : String
  count : Nat
deriving DecidableEq, Repr

/-- The LeetCode GraphQL response body: an optional `errors` field and the optional
`matchedUser` path (when `matchedUser` is `null`, dereferencing it throws a TypeError). -/
structure LCResponse where
  errors : Option (List String)
  matchedUser : Option (List LCEntry)

/-- `stats.find(s =&gt; s.difficulty === d)?.count || 0`. -/
def findCount (stats : List LCEntry) (d : String) : Nat :=
  match stats.find? (fun s => s.difficulty == d) with
  | some s => s.count
  | none => 0

/-- Texts extracted from the CodeChef profile page by the cheerio selectors
(`.rating-number`, `span.rating`, the problems-solved heading, `.contest-participated-count b`).
The DOM traversal itself is external; its observable output is these strings. -/
structure CodechefPage where
  ratingText : String
  starsText : String
  problemsHeadingText : String
  contestsText : String

/-- The HackerRank page's observable output: `$('div.hacker-badge').length`. -/
structure HackerrankPage where
  badgeCount : Nat

/-- The `submission_counts` object pulled out of the GFG inline script JSON;
absent fields are `none`. -/
structure GfgCounts where
  easy : Option Int
  medium : Option Int
  hard : Option Int

/-- The GFG page's observable output: the score-card text and, when the
`profile_user_stats` script is present, its regex-matched and JSON-parsed payload
(`none` when the script is missing, the regex fails, or `JSON.parse` throws). -/
structure GfgPage where
  scoreText : String
  profileData : Option GfgCounts

/-- A settled promise: `Promise.allSettled` reports each started call as
fulfilled (with its value) or rejected. -/
inductive Settled (α : Type)
  | fulfilled (value : α)
  | rejected
deriving DecidableEq, Repr

namespace Refresh

/-- `getLeetCodeStats` of refresh-stats.js: `data.errors` truthy returns `null`
(fulfilled-null); a `null` `matchedUser` makes the dereference throw (rejected);
otherwise the four buckets are extracted by difficulty label. -/
def getLeetCodeStats (up : Upstream LCResponse) : Settled (Option AggregateStats) :=
  match up with
  | .throw => .rejected
  | .ok resp =>
    if resp.errors.isSome then
      .fulfilled none
    else
      match resp.matchedUser with
      | none => .rejected
      | some stats =>
        .fulfilled (some { leetcode := some {
          problems_solved := findCount stats "All",
          Easy := findCount stats "Easy",
          Medium := findCount stats "Medium",
          Hard := findCount stats "Hard" } })

/-- `getCodeChefStats` of refresh-stats.js: defaults `'0'`&#47;`'Unrated'` for empty selector
text, first digit run of the problems heading, `parseInt` of each numeric field. -/
def getCodeChefStats (up : Upstream CodechefPage) : Settled (Option AggregateStats) :=
  match up with
  | .throw => .rejected
  | .ok pg =>
    let rating := jsOrDefault pg.ratingText.trim "0"
    let stars := jsOrDefault pg.starsText.trim "Unrated"
    let problems_solved := (firstDigitRun pg.problemsHeadingText).getD "0"
    let contests_participated := jsOrDefault pg.contestsText "0"
    .fulfilled (some { codechef := some {
      problems_solved := jsParseInt problems_solved,
      contest_rating := jsParseInt rating,
      stars := stars,
      contests_participated := jsParseInt contests_participated } })

/-- `getHackerRankStats` of refresh-stats.js (`badgeCount || 0` is the identity on a length). -/
def getHackerRankStats (up : Upstream HackerrankPage) : Settled (Option AggregateStats) :=
  match up with
  | .throw => .rejected
  | .ok pg => .fulfilled (some { hackerrank := some { badges := pg.badgeCount } })

/-- `getGfgStats` of refresh-stats.js: `parseInt(...) || 0` for the total, difficulty counts
from the script JSON defaulting to zero, all nested under the `gfg` key. -/
def getGfgStats (username : String) (up : Upstream GfgPage) : Settled (Option AggregateStats) :=
  match up with
  | .throw => .rejected
  | .ok pg =>
    let totalProblemsSolved := (jsParseInt pg.scoreText).getD 0
    let counts := pg.profileData.getD { easy := none, medium := none, hard := none }
    .fulfilled (some { gfg := some {
      username := username,
      totalProblemsSolved := totalProblemsSolved,
      easyProblems := counts.easy.getD 0,
      mediumProblems := counts.medium.getD 0,
      hardProblems := counts.hard.getD 0 } })

end Refresh

/-- The profile document's per-platform username fields (absent = `undefined`). -/
structure UserData where
  leetcode_username : Option String := none
  codechef_username : Option String := none
  hackerrank_username : Option String := none
  gfg_username : Option String := none

/-- The username field the fan-out consults for platform `p`. -/
def usernameFor (ud : UserData) : Platform → Option String
  | .leetcode => ud.leetcode_username
  | .codechef => ud.codechef_username
  | .hackerrank => ud.hackerrank_username
  | .gfg => ud.gfg_username

/-- Environment of the refresh handler: token verifier, Firestore user documents,
per-username upstream responses for each platform, and whether the final
`userDocRef.update` succeeds. -/
structure RefreshEnv where
  verify : String → Option String
  getDoc : String → Option UserData
  lcUp : String → Upstream LCResponse
  ccUp : String → Upstream CodechefPage
  hrUp : String → Upstream HackerrankPage
  gfgUp : String → Upstream GfgPage
  updateOk : Bool

/-- The settled outcome of platform `p`'s adapter call for the profile's username. -/
def scrapeCall (env : RefreshEnv) (ud : UserData) : Platform → Settled (Option AggregateStats)
  | .leetcode => Refresh.getLeetCodeStats (env.lcUp (ud.leetcode_username.getD ""))
  | .codechef => Refresh.getCodeChefStats (env.ccUp (ud.codechef_username.getD ""))
  | .hackerrank => Refresh.getHackerRankStats (env.hrUp (ud.hackerrank_username.getD ""))
  | .gfg => Refresh.getGfgStats (ud.gfg_username.getD "") (env.gfgUp (ud.gfg_username.getD ""))

/-- Fan-out order of the four `if (userData.x_username) scrapePromises.push(...)` lines. -/
def allPlatforms : List Platform :=
  [.leetcode, .codechef, .hackerrank, .gfg]

/-- The platforms whose adapter call is started: those with a truthy username, in push order. -/
def startedPlatforms (ud : UserData) : List Platform :=
  allPlatforms.filter (fun p => jsTruthyStr (usernameFor ud p))

/-- The list `Promise.allSettled` resolves with: one settled outcome per started call,
in input (push) order. -/
def fanOutResults (env : RefreshEnv) (ud : UserData) : List (Settled (Option AggregateStats)) :=
  (startedPlatforms ud).map (scrapeCall env ud)

/-- One key of `Object.assign(target, source)`: a key present in the source overwrites. -/
def jsKeyMerge {α : Type} (source target : Option α) : Option α :=
  match source with
  | some x => some x
  | none => target

/-- `Object.assign(target, source)` on platform-keyed objects. -/
def objAssign (target source : AggregateStats) : AggregateStats :=
  { leetcode := jsKeyMerge source.leetcode target.leetcode,
    codechef := jsKeyMerge source.codechef target.codechef,
    hackerrank := jsKeyMerge source.hackerrank target.hackerrank,
    gfg := jsKeyMerge source.gfg target.gfg }

/-- The body of `results.forEach`: merge a fulfilled truthy value, skip fulfilled-null
and rejected outcomes. -/
def mergeStep (acc : AggregateStats) (r : Settled (Option AggregateStats)) : AggregateStats :=
  match r with
  | .fulfilled (some v) => objAssign acc v
  | .fulfilled none => acc
  | .rejected => acc

/-- The initial `const newStats = &#x7b;&#x7d;`. -/
def emptyAgg : AggregateStats := {}

/-- Step 4 of the handler: fold the settled outcomes into `newStats`. -/
def mergeSettled (rs : List (Settled (Option AggregateStats))) : AggregateStats :=
  rs.foldl mergeStep emptyAgg

/-- The request fields the refresh handler reads. -/
structure RefreshRequest where
  method : String
  authorization : Option String

/-- Response status plus the trace of the handler's effects. -/
structure RefreshOutcome where
  status : Nat
  profileRead : Bool
  started : List Platform
  writeAttempts : List AggregateStats
  committed : Option AggregateStats
deriving DecidableEq, Repr

/-- `!authorization || !authorization.startsWith('Bearer ')`. -/
def authMissingOrMalformed (auth : Option String) : Bool :=
  !(jsTruthyStr auth) || !(jsStartsWith (auth.getD "") "Bearer ")

/-- `authorization.split('Bearer ')[1]` (defined when the header starts with the prefix). -/
def idTokenOf (auth : String) : String :=
  (auth.splitOn "Bearer ").getD 1 ""

/-- The refresh handler of refresh-stats.js: 405 on non-POST, 401 on a missing or
non-Bearer header, 403 when token verification throws.  Once authenticated, the try
block awaits `userDocRef.get()` (the profile read) and then evaluates
`docSnap.exists()` — but in firebase-admin `DocumentSnapshot.exists` is a boolean
property, not a method, so this call throws `TypeError: docSnap.exists is not a
function` unconditionally (refresh-stats.js:46, part_000:46).  The throw is inside the
try, so the catch answers 500: the 404 branch, the fan-out, the allSettled join, the
merge and the `update` write (lines 46-79) are unreachable in both source variants, and
every authenticated request ends with no adapter call started and no write attempted. -/
def refreshHandler (req : RefreshRequest) (env : RefreshEnv) : RefreshOutcome :=
  if req.method != "POST" then
    { status := 405, profileRead := false, started := [], writeAttempts := [], committed := none }
  else if authMissingOrMalformed req.authorization then
    { status := 401, profileRead := false, started := [], writeAttempts := [], committed := none }
  else
    match env.verify (idTokenOf (req.authorization.getD "")) with
    | none =>
      { status := 403, profileRead := false, started := [], writeAttempts := [], committed := none }
    | some _ =>
      { status := 500, profileRead := true, started := [], writeAttempts := [],
        committed := none }

/-- Whether platform `p`'s started adapter call succeeded with a (truthy) record. -/
def succeeded (env : RefreshEnv) (ud : UserData) (p : Platform) : Bool :=
  match scrapeCall env ud p with
  | .fulfilled (some _) => true
  | _ => false

namespace Score

/-- `getLeetCodeStats` of get-score.js: a truthy `data.errors` throws (as does a `null`
`matchedUser`); on success the four buckets are extracted by difficulty label.  Thrown
error messages only feed `console.error` and the handler's fixed 500 template, so the
error payload is `Unit`. -/
def getLeetCodeStats (up : Upstream LCResponse) : Except Unit LeetcodeStats :=
  match up with
  | .throw => .error ()
  | .ok resp =>
    if resp.errors.isSome then
      .error ()
    else
      match resp.matchedUser with
      | none => .error ()
      | some stats =>
        .ok { problems_solved := findCount stats "All",
              Easy := findCount stats "Easy",
              Medium := findCount stats "Medium",
              Hard := findCount stats "Hard" }

/-- `getCodeChefStats` of get-score.js: same field extraction as the refresh variant;
only the transport can throw. -/
def getCodeChefStats (up : Upstream CodechefPage) : Except Unit CodechefStats :=
  match up with
  | .throw => .error ()
  | .ok pg =>
    let rating := jsOrDefault pg.ratingText.trim "0"
    let stars := jsOrDefault pg.starsText.trim "Unrated"
    let problems_solved := (firstDigitRun pg.problemsHeadingText).getD "0"
    let contests_participated := jsOrDefault pg.contestsText "0"
    .ok { problems_solved := jsParseInt problems_solved,
          contest_rating := jsParseInt rating,
          stars := stars,
          contests_participated := jsParseInt contests_participated }

/-- `getHackerRankStats` of get-score.js. -/
def getHackerRankStats (up : Upstream HackerrankPage) : Except Unit HackerrankStats :=
  match up with
  | .throw => .error ()
  | .ok pg => .ok { badges := pg.badgeCount }

/-- `getGfgStats` of get-score.js: identical extraction to the refresh variant but the
record is returned FLAT (not nested under a `gfg` key). -/
def getGfgStats (username : String) (up : Upstream GfgPage) : Except Unit GfgStats :=
  match up with
  | .throw => .error ()
  | .ok pg =>
    let totalProblemsSolved := (jsParseInt pg.scoreText).getD 0
    let counts := pg.profileData.getD { easy := none, medium := none, hard := none }
    .ok { username := username,
          totalProblemsSolved := totalProblemsSolved,
          easyProblems := counts.easy.getD 0,
          mediumProblems := counts.medium.getD 0,
          hardProblems := counts.hard.getD 0 }

end Score

/-- The body a 200 lookup response carries: the selected adapter's record
(GFG's is flat, the other three are tagged by their platform key). -/
inductive LookupData
  | leetcode (r : LeetcodeStats)
  | codechef (r : CodechefStats)
  | hackerrank (r : HackerrankStats)
  | gfgFlat (r : GfgStats)
deriving DecidableEq, Repr

/-- Environment of the lookup handler: per-username upstream responses. -/
structure ScoreEnv where
  lcUp : String → Upstream LCResponse
  ccUp : String → Upstream CodechefPage
  hrUp : String → Upstream HackerrankPage
  gfgUp : String → Upstream GfgPage

/-- The switch case for platform `p`: run its adapter and tag the record. -/
def adapterRun (env : ScoreEnv) (username : String) : Platform → Except Unit LookupData
  | .leetcode => (Score.getLeetCodeStats (env.lcUp username)).map .leetcode
  | .codechef => (Score.getCodeChefStats (env.ccUp username)).map .codechef
  | .hackerrank => (Score.getHackerRankStats (env.hrUp username)).map .hackerrank
  | .gfg => (Score.getGfgStats username (env.gfgUp username)).map .gfgFlat

/-- The switch labels of get-score.js: the four supported strings, `default` otherwise. -/
def platformOfString : String → Option Platform
  | "leetcode" => some .leetcode
  | "codechef" => some .codechef
  | "hackerrank" => some .hackerrank
  | "gfg" => some .gfg
  | _ => none

/-- The query parameters the lookup handler reads. -/
structure ScoreRequest where
  platform : Option String
  username : Option String

/-- Lookup response status, whether an outbound adapter call was attempted, and the 200 body. -/
structure ScoreOutcome where
  status : Nat
  networkAttempted : Bool
  body : Option LookupData
deriving DecidableEq, Repr

/-- The get-score.js handler: 400 when either query parameter is falsy, switch on the
lowercased platform (default case 400 without any adapter call), then 200 with the
adapter's record or 500 when the adapter throws. -/
def scoreHandler (req : ScoreRequest) (env : ScoreEnv) : ScoreOutcome :=
  if !(jsTruthyStr req.platform) || !(jsTruthyStr req.username) then
    { status := 400, networkAttempted := false, body := none }
  else
    match platformOfString (jsToLower (req.platform.getD "")) with
    | none => { status := 400, networkAttempted := false, body := none }
    | some p =>
      match adapterRun env (req.username.getD "") p with
      | .ok d => { status := 200, networkAttempted := true, body := some d }
      | .error _ => { status := 500, networkAttempted := true, body := none }

/-- Whether a settled outcome contributes key `p` when merged. -/
def entryHasKey (p : Platform) : Settled (Option AggregateStats) → Bool
  | .fulfilled (some v) => v.hasKey p
  | .fulfilled none => false
  | .rejected => false

theorem isSome_jsKeyMerge {α : Type} (s t : Option α) :
    (jsKeyMerge s t).isSome = (s.isSome || t.isSome) := by
  cases s <;> simp [jsKeyMerge]

theorem hasKey_objAssign (a v : AggregateStats) (p : Platform) :
    (objAssign a v).hasKey p = (v.hasKey p || a.hasKey p) := by
  cases p <;> simp [objAssign, AggregateStats.hasKey, isSome_jsKeyMerge]

theorem emptyAgg_hasKey (p : Platform) : emptyAgg.hasKey p = false := by
  cases p <;> rfl

theorem hasKey_foldl_mergeStep (l : List (Settled (Option AggregateStats)))
    (acc : AggregateStats) (p : Platform) :
    (l.foldl mergeStep acc).hasKey p = (acc.hasKey p || l.any (entryHasKey p)) := by
  induction l generalizing acc with
  | nil => simp
  | cons r t ih =>
    cases r with
    | rejected => simp [List.foldl, mergeStep, ih, entryHasKey]
    | fulfilled v =>
      cases v with
      | none => simp [List.foldl, mergeStep, ih, entryHasKey]
      | some w =>
        simp [List.foldl, mergeStep, ih, entryHasKey, hasKey_objAssign,
          Bool.or_assoc, Bool.or_comm, Bool.or_left_comm]

theorem jsKeyMerge_comm {α : Type} (s t z : Option α)
    (h : ¬(s.isSome = true ∧ t.isSome = true)) :
    jsKeyMerge t (jsKeyMerge s z) = jsKeyMerge s (jsKeyMerge t z) := by
  cases s <;> cases t <;> simp [jsKeyMerge] at h ⊢

theorem objAssign_comm_of_disjoint (z v w : AggregateStats)
    (h : ∀ p : Platform, ¬(v.hasKey p = true ∧ w.hasKey p = true)) :
    objAssign (objAssign z v) w = objAssign (objAssign z w) v := by
  have hl := h .leetcode
  have hc := h .codechef
  have hh := h .hackerrank
  have hg := h .gfg
  simp only [AggregateStats.hasKey] at hl hc hh hg
  refine AggregateStats.ext ?_ ?_ ?_ ?_
  · exact jsKeyMerge_comm _ _ _ hl
  · exact jsKeyMerge_comm _ _ _ hc
  · exact jsKeyMerge_comm _ _ _ hh
  · exact jsKeyMerge_comm _ _ _ hg

theorem scrapeCall_success_hasKey (env : RefreshEnv) (ud : UserData) (p : Platform)
    (v : AggregateStats) (h : scrapeCall env ud p = .fulfilled (some v)) (q : Platform) :
    v.hasKey q = true ↔ q = p := by
  cases p with
  | leetcode =>
    simp only [scrapeCall, Refresh.getLeetCodeStats] at h
    split at h
    · exact absurd h (by simp)
    next resp =>
      split at h
      · exact absurd h (by simp)
      · split at h
        · exact absurd h (by simp)
        · simp only [Settled.fulfilled.injEq, Option.some.injEq] at h
          subst h
          cases q <;> simp [AggregateStats.hasKey]
  | codechef =>
    simp only [scrapeCall, Refresh.getCodeChefStats] at h
    split at h
    · exact absurd h (by simp)
    · simp only [Settled.fulfilled.injEq, Option.some.injEq] at h
      subst h
      cases q <;> simp [AggregateStats.hasKey]
  | hackerrank =>
    simp only [scrapeCall, Refresh.getHackerRankStats] at h
    split at h
    · exact absurd h (by simp)
    · simp only [Settled.fulfilled.injEq, Option.some.injEq] at h
      subst h
      cases q <;> simp [AggregateStats.hasKey]
  | gfg =>
    simp only [scrapeCall, Refresh.getGfgStats] at h
    split at h
    · exact absurd h (by simp)
    · simp only [Settled.fulfilled.injEq, Option.some.injEq] at h
      subst h
      cases q <;> simp [AggregateStats.hasKey]

theorem mergeStep_comm_of_calls (env : RefreshEnv) (ud : UserData) (p q : Platform)
    (z : AggregateStats) :
    mergeStep (mergeStep z (scrapeCall env ud p)) (scrapeCall env ud q) =
      mergeStep (mergeStep z (scrapeCall env ud q)) (scrapeCall env ud p) := by
  by_cases hpq : p = q
  · subst hpq; rfl
  · cases hx : scrapeCall env ud p with
    | rejected => simp [mergeStep]
    | fulfilled vx =>
      cases vx with
      | none => simp [mergeStep]
      | some v =>
        cases hy : scrapeCall env ud q with
        | rejected => simp [mergeStep]
        | fulfilled vy =>
          cases vy with
          | none => simp [mergeStep]
          | some w =>
            simp only [mergeStep]
            refine objAssign_comm_of_disjoint z v w fun r hr => ?_
            have h1 := (scrapeCall_success_hasKey env ud p v hx r).mp hr.1
            have h2 := (scrapeCall_success_hasKey env ud q w hy r).mp hr.2
            exact hpq (h1.symm.trans h2)

theorem mergeSettled_perm_invariant (env : RefreshEnv) (ud : UserData)
    (l : List (Settled (Option AggregateStats))) (hl : l.Perm (fanOutResults env ud)) :
    mergeSettled l = mergeSettled (fanOutResults env ud) := by
  refine hl.foldl_eq' ?_ emptyAgg
  intro x hx y hy z
  obtain ⟨p, _, rfl⟩ := List.mem_map.mp (hl.subset hx)
  obtain ⟨q, _, rfl⟩ := List.mem_map.mp (hl.subset hy)
  exact mergeStep_comm_of_calls env ud p q z

theorem hasKey_mergeSettled_fanOut (env : RefreshEnv) (ud : UserData) (p : Platform) :
    (mergeSettled (fanOutResults env ud)).hasKey p = true ↔
      p ∈ startedPlatforms ud ∧ succeeded env ud p = true := by
  rw [mergeSettled, hasKey_foldl_mergeStep, emptyAgg_hasKey, Bool.false_or]
  rw [List.any_eq_true]
  constructor
  · rintro ⟨x, hx, hxk⟩
    obtain ⟨q, hq, rfl⟩ := List.mem_map.mp hx
    cases hc : scrapeCall env ud q with
    | rejected => rw [hc] at hxk; simp [entryHasKey] at hxk
    | fulfilled vy =>
      cases vy with
      | none => rw [hc] at hxk; simp [entryHasKey] at hxk
      | some w =>
        rw [hc] at hxk
        simp only [entryHasKey] at hxk
        obtain rfl := (scrapeCall_success_hasKey env ud q w hc p).mp hxk
        exact ⟨hq, by simp [succeeded, hc]⟩
  · rintro ⟨hp, hs⟩
    refine ⟨scrapeCall env ud p, List.mem_map_of_mem _ hp, ?_⟩
    rw [succeeded] at hs
    cases hc : scrapeCall env ud p with
    | rejected => rw [hc] at hs; simp at hs
    | fulfilled vy =>
      cases vy with
      | none => rw [hc] at hs; simp at hs
      | some w =>
        simp only [entryHasKey]
        exact (scrapeCall_success_hasKey env ud p w hc p).mpr rfl

theorem authOk_of_startsWith (a : String) (hb : jsStartsWith a "Bearer " = true) :
    authMissingOrMalformed (some a) = false := by
  have hne : (a == "") = false := by
    cases hempty : a == ""
    · rfl
    · exfalso
      have ha : a = "" := by simpa using hempty
      rw [ha] at hb
      exact absurd hb (by decide)
  simp [authMissingOrMalformed, jsTruthyStr, hne, hb]

theorem refreshHandler_authed (req : RefreshRequest) (env : RefreshEnv) (a uid : String)
    (hm : req.method = "POST") (ha : req.authorization = some a)
    (hb : jsStartsWith a "Bearer " = true)
    (hv : env.verify (idTokenOf a) = some uid) :
    refreshHandler req env =
      { status := 500, profileRead := true, started := [], writeAttempts := [],
        committed := none } := by
  have hmm := authOk_of_startsWith a hb
  simp [refreshHandler, hm, ha, hmm, hv]

/-- Sample LeetCode GraphQL payload matching the spec's end-to-end example. -/
def lcSample : LCResponse :=
  { errors := none,
    matchedUser := some [⟨"All", 120⟩, ⟨"Easy", 80⟩, ⟨"Medium", 35⟩, ⟨"Hard", 5⟩] }

/-- Spec end-to-end example profile: leetcode and codechef configured, the others absent. -/
def udAlice : UserData :=
  { leetcode_username := some "alice", codechef_username := some "bob" }

/-- A profile with no platform usernames configured. -/
def udNone : UserData := {}

/-- Refresh environment of the spec's end-to-end example: valid token, profile present,
LeetCode succeeds, the scraped platforms throw, persistence succeeds. -/
def envA : RefreshEnv :=
  { verify := fun _ => some "u1",
    getDoc := fun _ => some udAlice,
    lcUp := fun _ => .ok lcSample,
    ccUp := fun _ => .throw,
    hrUp := fun _ => .throw,
    gfgUp := fun _ => .throw,
    updateOk := true }

/-- Like `envA` but the token verifier rejects every credential. -/
def envB : RefreshEnv := { envA with verify := fun _ => none }

/-- Like `envA` but no user document exists. -/
def envC : RefreshEnv := { envA with getDoc := fun _ => none }

/-- Like `envA` but the stored profile has no usernames configured. -/
def envD : RefreshEnv := { envA with getDoc := fun _ => some udNone }

/-- Like `envA` but every upstream call throws. -/
def envE : RefreshEnv := { envA with lcUp := fun _ => .throw }

/-- Like `envA` but the persistence write fails. -/
def envF : RefreshEnv := { envA with updateOk := false }

/-- C1: for any subset of configured platforms with independently succeeding or failing
adapter calls, the merged aggregate is completion-order independent (the same for every
permutation of the settled outcomes) and contains exactly the platform keys of the started
calls that succeeded — never a key for a platform whose call failed or threw. -/
theorem refresh_aggregate_exact_success_keys (env : RefreshEnv) (ud : UserData)
    (l : List (Settled (Option AggregateStats))) (hl : l.Perm (fanOutResults env ud)) :
    mergeSettled l = mergeSettled (fanOutResults env ud) ∧
    ∀ p : Platform,
      (mergeSettled (fanOutResults env ud)).hasKey p = true ↔
        p ∈ startedPlatforms ud ∧ succeeded env ud p = true :=
  ⟨mergeSettled_perm_invariant env ud l hl, fun p => hasKey_mergeSettled_fanOut env ud p⟩

theorem refresh_aggregate_exact_success_keys_witness :
    mergeSettled (fanOutResults envA udAlice).reverse = mergeSettled (fanOutResults envA udAlice) ∧
    ∀ p : Platform,
      (mergeSettled (fanOutResults envA udAlice)).hasKey p = true ↔
        p ∈ startedPlatforms udAlice ∧ succeeded envA udAlice p = true :=
  refresh_aggregate_exact_success_keys envA udAlice
    (fanOutResults envA udAlice).reverse (List.reverse_perm _)

/-- C2: the merge fold is commutative (any permutation of the settled outcomes yields the
same aggregate), merging only adds keys, failed or null outcomes leave the accumulator
untouched (one adapter's failure never overwrites or removes another's result), and each
adapter's successful value is keyed by exactly its own platform, so keys are pairwise
disjoint by construction. -/
theorem refresh_merge_algebra (env : RefreshEnv) (ud : UserData) :
    (∀ l, l.Perm (fanOutResults env ud) →
      mergeSettled l = mergeSettled (fanOutResults env ud)) ∧
    (∀ (acc : AggregateStats) (r : Settled (Option AggregateStats)) (p : Platform),
      acc.hasKey p = true → (mergeStep acc r).hasKey p = true) ∧
    (∀ acc : AggregateStats,
      mergeStep acc .rejected = acc ∧ mergeStep acc (.fulfilled none) = acc) ∧
    (∀ (p : Platform) (v : AggregateStats), scrapeCall env ud p = .fulfilled (some v) →
      ∀ q : Platform, v.hasKey q = true ↔ q = p) := by
  refine ⟨fun l hl => mergeSettled_perm_invariant env ud l hl, ?_, fun acc => ⟨rfl, rfl⟩,
    fun p v h q => scrapeCall_success_hasKey env ud p v h q⟩
  intro acc r p hacc
  cases r with
  | rejected => exact hacc
  | fulfilled v =>
    cases v with
    | none => exact hacc
    | some w => rw [mergeStep, hasKey_objAssign, hacc, Bool.or_true]

theorem refresh_merge_algebra_witness :
    mergeSettled (fanOutResults envE udAlice).reverse = mergeSettled (fanOutResults envE udAlice) ∧
    (mergeStep { leetcode := some ⟨1, 2, 3, 4⟩ } .rejected : AggregateStats) =
      { leetcode := some ⟨1, 2, 3, 4⟩ } :=
  ⟨(refresh_merge_algebra envE udAlice).1 (fanOutResults envE udAlice).reverse
      (List.reverse_perm _),
    ((refresh_merge_algebra envE udAlice).2.2.1 { leetcode := some ⟨1, 2, 3, 4⟩ }).1⟩

/-- C3: on a POST refresh request, a missing or non-Bearer Authorization header yields 401
and a failing token verification yields 403; in both cases the handler performs no profile
read and no write. -/
theorem refresh_auth_errors (req : RefreshRequest) (env : RefreshEnv)
    (hm : req.method = "POST") :
    (authMissingOrMalformed req.authorization = true →
      refreshHandler req env =
        { status := 401, profileRead := false, started := [], writeAttempts := [],
          committed := none }) ∧
    (∀ a, req.authorization = some a → jsStartsWith a "Bearer " = true →
      env.verify (idTokenOf a) = none →
      refreshHandler req env =
        { status := 403, profileRead := false, started := [], writeAttempts := [],
          committed := none }) := by
  constructor
  · intro h
    simp [refreshHandler, hm, h]
  · intro a ha hb hv
    have hmm := authOk_of_startsWith a hb
    simp [refreshHandler, hm, ha, hmm, hv]

theorem refresh_auth_errors_witness :
    refreshHandler { method := "POST", authorization := none } envA =
      { status := 401, profileRead := false, started := [], writeAttempts := [],
        committed := none } ∧
    refreshHandler { method := "POST", authorization := some "Bearer tok" } envB =
      { status := 403, profileRead := false, started := [], writeAttempts := [],
        committed := none } :=
  ⟨(refresh_auth_errors { method := "POST", authorization := none } envA rfl).1 (by decide),
    (refresh_auth_errors { method := "POST", authorization := some "Bearer tok" } envB rfl).2
      "Bearer tok" rfl (by decide) rfl⟩

/-- C4 (code bug): the spec and claim say a valid credential whose identity has no stored
profile answers 404; in firebase-admin `DocumentSnapshot.exists` is a property, so the call
`docSnap.exists()` (refresh-stats.js:46) throws a TypeError inside the try block and the
catch answers 500 — the 404 branch is unreachable, and no fan-out, merge or write runs. -/
theorem refresh_profile_not_found_code_bug (req : RefreshRequest) (env : RefreshEnv)
    (a uid : String)
    (hm : req.method = "POST") (ha : req.authorization = some a)
    (hb : jsStartsWith a "Bearer " = true)
    (hv : env.verify (idTokenOf a) = some uid)
    (hd : env.getDoc uid = none) :
    refreshHandler req env =
      { status := 500, profileRead := true, started := [], writeAttempts := [],
        committed := none } ∧
    (refreshHandler req env).status ≠ 404 := by
  have h := refreshHandler_authed req env a uid hm ha hb hv
  exact ⟨h, by rw [h]; decide⟩

theorem refresh_profile_not_found_code_bug_witness :
    refreshHandler { method := "POST", authorization := some "Bearer tok" } envC =
      { status := 500, profileRead := true, started := [], writeAttempts := [],
        committed := none } ∧
    (refreshHandler { method := "POST", authorization := some "Bearer tok" } envC).status ≠
      404 :=
  refresh_profile_not_found_code_bug { method := "POST", authorization := some "Bearer tok" }
    envC "Bearer tok" "u1" rfl rfl (by decide) rfl rfl

/-- C5 (code bug): the claim says a profile with no configured platform username gives an
empty fan-out, an empty merged aggregate, a persist step that still runs and a 200 answer;
the unconditional TypeError at `docSnap.exists()` (refresh-stats.js:46) is caught and
answers 500 first, so this scenario ends with no adapter call, no write attempt and
status 500, never 200 — persist never runs. -/
theorem refresh_zero_configured_code_bug (req : RefreshRequest) (env : RefreshEnv)
    (a uid : String) (ud : UserData)
    (hm : req.method = "POST") (ha : req.authorization = some a)
    (hb : jsStartsWith a "Bearer " = true)
    (hv : env.verify (idTokenOf a) = some uid)
    (hd : env.getDoc uid = some ud)
    (h0 : ∀ p, jsTruthyStr (usernameFor ud p) = false)
    (hup : env.updateOk = true) :
    refreshHandler req env =
      { status := 500, profileRead := true, started := [], writeAttempts := [],
        committed := none } ∧
    (refreshHandler req env).status ≠ 200 := by
  have h := refreshHandler_authed req env a uid hm ha hb hv
  exact ⟨h, by rw [h]; decide⟩

theorem refresh_zero_configured_code_bug_witness :
    refreshHandler { method := "POST", authorization := some "Bearer tok" } envD =
      { status := 500, profileRead := true, started := [], writeAttempts := [],
        committed := none } ∧
    (refreshHandler { method := "POST", authorization := some "Bearer tok" } envD).status ≠
      200 :=
  refresh_zero_configured_code_bug { method := "POST", authorization := some "Bearer tok" }
    envD "Bearer tok" "u1" udNone rfl rfl (by decide) rfl rfl (by decide) rfl

/-- C6 (code bug): the claim says that when every started adapter call fails the aggregate
is empty but the request still answers 200 provided the write succeeds; the TypeError at
`docSnap.exists()` (part_000:46, refresh-stats.js:46) is caught and answers 500 before any
adapter call starts, so this route never emits 200. -/
theorem refresh_all_adapters_fail_code_bug (req : RefreshRequest) (env : RefreshEnv)
    (a uid : String) (ud : UserData)
    (hm : req.method = "POST") (ha : req.authorization = some a)
    (hb : jsStartsWith a "Bearer " = true)
    (hv : env.verify (idTokenOf a) = some uid)
    (hd : env.getDoc uid = some ud)
    (hfail : ∀ p ∈ startedPlatforms ud, succeeded env ud p = false)
    (hup : env.updateOk = true) :
    refreshHandler req env =
      { status := 500, profileRead := true, started := [], writeAttempts := [],
        committed := none } ∧
    (refreshHandler req env).status ≠ 200 := by
  have h := refreshHandler_authed req env a uid hm ha hb hv
  exact ⟨h, by rw [h]; decide⟩

theorem refresh_all_adapters_fail_code_bug_witness :
    refreshHandler { method := "POST", authorization := some "Bearer tok" } envE =
      { status := 500, profileRead := true, started := [], writeAttempts := [],
        committed := none } ∧
    (refreshHandler { method := "POST", authorization := some "Bearer tok" } envE).status ≠
      200 :=
  refresh_all_adapters_fail_code_bug { method := "POST", authorization := some "Bearer tok" }
    envE "Bearer tok" "u1" udAlice rfl rfl (by decide) rfl rfl (by decide) rfl

/-- C7 (code bug): the claim presupposes requests reach the persist step and says a failing
write answers 500 with the scraped data discarded; in the code no request reaches the
persist step — the TypeError at `docSnap.exists()` (refresh-stats.js:46) is caught first —
so the handler makes zero write attempts (nothing is scraped to discard) and the 500 it
answers comes from that TypeError, not from a write failure. -/
theorem refresh_persist_failure_code_bug (req : RefreshRequest) (env : RefreshEnv)
    (a uid : String) (ud : UserData)
    (hm : req.method = "POST") (ha : req.authorization = some a)
    (hb : jsStartsWith a "Bearer " = true)
    (hv : env.verify (idTokenOf a) = some uid)
    (hd : env.getDoc uid = some ud)
    (hup : env.updateOk = false) :
    refreshHandler req env =
      { status := 500, profileRead := true, started := [], writeAttempts := [],
        committed := none } ∧
    (refreshHandler req env).writeAttempts = [] := by
  have h := refreshHandler_authed req env a uid hm ha hb hv
  exact ⟨h, by rw [h]⟩

theorem refresh_persist_failure_code_bug_witness :
    refreshHandler { method := "POST", authorization := some "Bearer tok" } envF =
      { status := 500, profileRead := true, started := [], writeAttempts := [],
        committed := none } ∧
    (refreshHandler
        { method := "POST", authorization := some "Bearer tok" } envF).writeAttempts = [] :=
  refresh_persist_failure_code_bug { method := "POST", authorization := some "Bearer tok" }
    envF "Bearer tok" "u1" udAlice rfl rfl (by decide) rfl rfl rfl

/-- C10: a refresh request whose method is not POST answers 405 before any authentication
check, profile access or adapter call (the whole outcome is fixed, independent of the
environment), and 405 is not among the response codes of the documented contract. -/
theorem refresh_non_post (req : RefreshRequest) (env : RefreshEnv)
    (h : req.method ≠ "POST") :
    refreshHandler req env =
      { status := 405, profileRead := false, started := [], writeAttempts := [],
        committed := none } ∧
    (405 : Nat) ∉ ([200, 401, 403, 404, 500] : List Nat) := by
  refine ⟨?_, by decide⟩
  simp [refreshHandler, bne_iff_ne, h]

theorem refresh_non_post_witness :
    refreshHandler { method := "GET", authorization := some "Bearer tok" } envA =
      { status := 405, profileRead := false, started := [], writeAttempts := [],
        committed := none } :=
  (refresh_non_post { method := "GET", authorization := some "Bearer tok" } envA
    (by decide)).1

/-- Lookup environment: LeetCode answers the sample payload, the scraped platforms throw. -/
def scoreEnvA : ScoreEnv :=
  { lcUp := fun _ => .ok lcSample,
    ccUp := fun _ => .throw,
    hrUp := fun _ => .throw,
    gfgUp := fun _ => .throw }

/-- Lookup environment whose LeetCode response carries an error-shaped payload. -/
def scoreEnvErr : ScoreEnv :=
  { scoreEnvA with lcUp := fun _ => .ok { errors := some ["user not found"], matchedUser := none } }

/-- C8 counterexample: the platform value is compared after lowercasing, so the literal
value LEETCODE is not in the claimed supported set, yet the handler performs the adapter
call and answers 200 rather than 400. -/
theorem score_unsupported_uppercase_counterexample :
    ("LEETCODE" ∈ (["leetcode", "codechef", "hackerrank", "gfg"] : List String) → False) ∧
    scoreHandler { platform := some "LEETCODE", username := some "alice" } scoreEnvA =
      { status := 200, networkAttempted := true,
        body := some (.leetcode
          { problems_solved := 120, Easy := 80, Medium := 35, Hard := 5 }) } := by
  decide

/-- C8 (amended): a missing platform or username parameter, or a platform value whose
lowercasing is not in the supported set, answers 400 with no adapter call attempted; when
the lowercased platform is supported, a throwing adapter yields 500 and a successful
adapter yields 200 with the adapter's record. -/
theorem score_lookup_contract (req : ScoreRequest) (env : ScoreEnv) :
    ((jsTruthyStr req.platform = false ∨ jsTruthyStr req.username = false) →
      scoreHandler req env = { status := 400, networkAttempted := false, body := none }) ∧
    (jsTruthyStr req.platform = true → jsTruthyStr req.username = true →
      (platformOfString (jsToLower (req.platform.getD "")) = none →
        scoreHandler req env = { status := 400, networkAttempted := false, body := none }) ∧
      (∀ p, platformOfString (jsToLower (req.platform.getD "")) = some p →
        (∀ e, adapterRun env (req.username.getD "") p = .error e →
          scoreHandler req env = { status := 500, networkAttempted := true, body := none }) ∧
        (∀ d, adapterRun env (req.username.getD "") p = .ok d →
          scoreHandler req env =
            { status := 200, networkAttempted := true, body := some d }))) := by
  constructor
  · rintro (h | h) <;> simp [scoreHandler, h]
  · intro hp hu
    constructor
    · intro hnone
      simp [scoreHandler, hp, hu, hnone]
    · intro p hps
      constructor
      · intro e he
        simp [scoreHandler, hp, hu, hps, he]
      · intro d hd
        simp [scoreHandler, hp, hu, hps, hd]

theorem score_lookup_contract_witness :
    scoreHandler { platform := some "foo", username := some "alice" } scoreEnvA =
      { status := 400, networkAttempted := false, body := none } ∧
    scoreHandler { platform := some "codechef", username := some "alice" } scoreEnvA =
      { status := 500, networkAttempted := true, body := none } ∧
    scoreHandler { platform := some "leetcode", username := some "alice" } scoreEnvA =
      { status := 200, networkAttempted := true,
        body := some (.leetcode
          { problems_solved := 120, Easy := 80, Medium := 35, Hard := 5 }) } := by
  refine ⟨((score_lookup_contract { platform := some "foo", username := some "alice" }
      scoreEnvA).2 (by decide) (by decide)).1 (by decide), ?_, ?_⟩
  · exact (((score_lookup_contract { platform := some "codechef", username := some "alice" }
      scoreEnvA).2 (by decide) (by decide)).2 .codechef (by decide)).1 () rfl
  · exact (((score_lookup_contract { platform := some "leetcode", username := some "alice" }
      scoreEnvA).2 (by decide) (by decide)).2 .leetcode (by decide)).2
      (.leetcode { problems_solved := 120, Easy := 80, Medium := 35, Hard := 5 }) rfl

/-- C9: in the single-lookup flow the LeetCode adapter treats an error-shaped payload as a
failure — the request answers 500, never a default-zero record — and on a non-error payload
it extracts the four difficulty buckets from the unordered submission list by matching the
difficulty label, any absent bucket defaulting to zero. -/
theorem leetcode_lookup_error_shape (env : ScoreEnv) (u : String) (resp : LCResponse)
    (hu : (u == "") = false) (hup : env.lcUp u = .ok resp) :
    (resp.errors.isSome = true →
      scoreHandler { platform := some "leetcode", username := some u } env =
        { status := 500, networkAttempted := true, body := none }) ∧
    (resp.errors = none → ∀ stats, resp.matchedUser = some stats →
      scoreHandler { platform := some "leetcode", username := some u } env =
        { status := 200, networkAttempted := true,
          body := some (.leetcode
            { problems_solved := findCount stats "All",
              Easy := findCount stats "Easy",
              Medium := findCount stats "Medium",
              Hard := findCount stats "Hard" }) }) ∧
    (∀ (stats : List LCEntry) (d : String),
      (∀ e ∈ stats, e.difficulty ≠ d) → findCount stats d = 0) := by
  have hplat : platformOfString (jsToLower "leetcode") = some Platform.leetcode := by decide
  refine ⟨?_, ?_, ?_⟩
  · intro herr
    have hrun : adapterRun env u .leetcode = .error () := by
      simp [adapterRun, Score.getLeetCodeStats, hup, herr, Except.map]
    simp [scoreHandler, jsTruthyStr, hu, hplat, hrun]
  · intro herr stats hmu
    have hrun : adapterRun env u .leetcode = .ok (.leetcode
        { problems_solved := findCount stats "All",
          Easy := findCount stats "Easy",
          Medium := findCount stats "Medium",
          Hard := findCount stats "Hard" }) := by
      simp [adapterRun, Score.getLeetCodeStats, hup, herr, hmu, Except.map]
    simp [scoreHandler, jsTruthyStr, hu, hplat, hrun]
  · intro stats d hne
    have hnone : stats.find? (fun s => s.difficulty == d) = none :=
      List.find?_eq_none.mpr (fun x hx => by simpa using hne x hx)
    simp [findCount, hnone]

theorem leetcode_lookup_error_shape_witness :
    scoreHandler { platform := some "leetcode", username := some "ghost" } scoreEnvErr =
      { status := 500, networkAttempted := true, body := none } ∧
    findCount [⟨"Easy", 3⟩] "Hard" = 0 :=
  ⟨(leetcode_lookup_error_shape scoreEnvErr "ghost"
      { errors := some ["user not found"], matchedUser := none } (by decide) rfl).1 (by decide),
    (leetcode_lookup_error_shape scoreEnvA "alice" lcSample (by decide) rfl).2.2
      [⟨"Easy", 3⟩] "Hard" (by decide)⟩

end Codesync
